import Mathlib

/-!
Shallow embedding of `src/templates/nfed/src/main.c` (a Zephyr blinky
sample with two compile-time variants) and proofs about it.

Variant A (board `CONFIG_BOARD_CIRCUITDOJO_FEATHER_NRF9151`, lines 17-34):
logs "Blinky Sample", then loops forever: `led_on(leds, 2U)`, sleep 1000 ms,
`led_off(leds, 2U)`, sleep 1000 ms.  Return values of `led_on`/`led_off`
are discarded.  `return 0;` follows the infinite loop.

Variant B (all other boards, lines 36-73): prints "Hello World! %s\n" with
the board name, returns if `gpio_is_ready_dt` fails, calls
`gpio_pin_configure_dt(&led, GPIO_OUTPUT_ACTIVE)` and returns if the result
is negative, then loops forever: `gpio_pin_toggle_dt`, return if negative,
else `k_msleep(1000)`.

The hardware environment (device readiness, return codes of LED and GPIO
calls) is an explicit parameter; both entry points are modelled as
fuel-bounded functions producing the list of observable events together
with whether the entry point has returned within the given number of loop
iterations.
-/

namespace Blinky

/-- Sleep duration in milliseconds, from the `SLEEP_TIME_MS` macro (line 15). -/
def SLEEP_TIME_MS : Nat := 1000

/-- Pin configuration flag used by the program: `GPIO_OUTPUT_ACTIVE`
(output direction, initial logical state active). -/
inductive GpioFlag where
  | outputActive
deriving DecidableEq, Repr

/-- Observable events of one run: diagnostic output, LED channel calls,
the GPIO configure call (with its flag and return code), the GPIO toggle
call (with its return code and the pin logical level after the call), and
thread sleeps. -/
inductive Event where
  | logInf (msg : String)
  | printk (msg : String)
  | ledOn (ch : Nat)
  | ledOff (ch : Nat)
  | configureCall (flag : GpioFlag) (ret : Int)
  | toggleCall (ret : Int) (level : Bool)
  | sleep (ms : Nat)
deriving DecidableEq, Repr

/-- Whether the entry point has returned within the observed iterations
(`returned`), or the infinite loop is still running when the fuel bound is
reached (`running`). -/
inductive Outcome where
  | returned
  | running
deriving DecidableEq, Repr

/-! Variant A: PMIC LED path (lines 17-34). -/

/-- Environment for Variant A: the return codes the LED driver gives to the
i-th `led_on` and `led_off` call.  The C code discards them. -/
structure LedEnv where
  onRet : Nat → Int
  offRet : Nat → Int

/-- Model of `led_on(leds, ch)` at the i-th iteration: a return code
(supplied by the environment) and the observable event. -/
def led_on (env : LedEnv) (i ch : Nat) : Int × Event :=
  (env.onRet i, Event.ledOn ch)

/-- Model of `led_off(leds, ch)` at the i-th iteration. -/
def led_off (env : LedEnv) (i ch : Nat) : Int × Event :=
  (env.offRet i, Event.ledOff ch)

/-- Fuel-bounded model of Variant A's `while (1)` body (lines 25-31):
each iteration calls `led_on(leds, 2U)`, sleeps, calls `led_off(leds, 2U)`,
sleeps.  The Boolean is true when the loop body exited the loop (it never
does: no `break` or `return` occurs in the body). -/
def mainALoop (env : LedEnv) : Nat → Nat → List Event × Bool
  | 0, _ => ([], false)
  | fuel + 1, i =>
    let r1 := led_on env i 2
    let r2 := led_off env i 2
    let rest := mainALoop env fuel (i + 1)
    (r1.2 :: Event.sleep SLEEP_TIME_MS :: r2.2 :: Event.sleep SLEEP_TIME_MS :: rest.1,
      rest.2)

/-- Fuel-bounded model of Variant A's `main` (lines 21-34): log
"Blinky Sample", run the loop; the second component is the exit code,
`some 0` if the loop were ever exited (the `return 0;` on line 33), `none`
while the loop still runs. -/
def mainA (env : LedEnv) (fuel : Nat) : List Event × Option Int :=
  let body := mainALoop env fuel 0
  (Event.logInf "Blinky Sample" :: body.1, if body.2 then some 0 else none)

/-! Variant B: raw GPIO path (lines 36-73). -/

/-- Environment for Variant B: whether `gpio_is_ready_dt` succeeds, the
return code of `gpio_pin_configure_dt`, and the return code of the i-th
`gpio_pin_toggle_dt` call. -/
structure GpioEnv where
  ready : Bool
  configureRet : Int
  toggleRet : Nat → Int

/-- Model of `gpio_pin_toggle_dt` at the i-th iteration, given the current
pin logical level: returns the environment's code and the level after the
call (inverted on success, unchanged on failure). -/
def gpio_pin_toggle_dt (env : GpioEnv) (i : Nat) (level : Bool) : Int × Bool :=
  let ret := env.toggleRet i
  if ret < 0 then (ret, level) else (ret, !level)

/-- Result of running (a bounded prefix of) Variant B: the trace of events,
the outcome, and the pin logical level at the end (`none` while the pin was
never successfully configured). -/
structure MainResult where
  trace : List Event
  outcome : Outcome
  level : Option Bool
deriving DecidableEq, Repr

/-- Fuel-bounded model of Variant B's `while (1)` loop (lines 64-72),
carrying the current pin logical level and the iteration index: toggle; if
the return code is negative, return from `main`; otherwise sleep
`SLEEP_TIME_MS` and repeat. -/
def blinkLoop (env : GpioEnv) : Nat → Bool → Nat → MainResult
  | 0, level, _ => ⟨[], Outcome.running, some level⟩
  | fuel + 1, level, i =>
    let t := gpio_pin_toggle_dt env i level
    if t.1 < 0 then
      ⟨[Event.toggleCall t.1 t.2], Outcome.returned, some t.2⟩
    else
      let rest := blinkLoop env fuel t.2 (i + 1)
      ⟨Event.toggleCall t.1 t.2 :: Event.sleep SLEEP_TIME_MS :: rest.trace,
        rest.outcome, rest.level⟩

/-- Text printed by line 51, `printk("Hello World! %s\n", CONFIG_BOARD)`,
with the board identity string substituted for `%s`. -/
def greeting (board : String) : String :=
  "Hello World! " ++ board ++ "\n"

/-- Fuel-bounded model of Variant B's `main` (lines 47-73): print the
greeting; if the device is not ready, return; configure the pin as
`GPIO_OUTPUT_ACTIVE` (on success the pin level becomes active, i.e. true)
and return if the code is negative; otherwise enter the toggle loop. -/
def mainB (env : GpioEnv) (board : String) (fuel : Nat) : MainResult :=
  let greet := Event.printk (greeting board)
  if env.ready = false then
    ⟨[greet], Outcome.returned, none⟩
  else
    let ret := env.configureRet
    if ret < 0 then
      ⟨[greet, Event.configureCall GpioFlag.outputActive ret], Outcome.returned, none⟩
    else
      let r := blinkLoop env fuel true 0
      ⟨greet :: Event.configureCall GpioFlag.outputActive ret :: r.trace,
        r.outcome, r.level⟩

/-! Observers over traces. -/

/-- Number of toggle calls recorded in a trace. -/
def toggleCount (tr : List Event) : Nat :=
  tr.countP fun e => match e with
    | Event.toggleCall _ _ => true
    | _ => false

/-- Number of configure calls recorded in a trace. -/
def configureCount (tr : List Event) : Nat :=
  tr.countP fun e => match e with
    | Event.configureCall _ _ => true
    | _ => false

/-- Number of sleeps recorded in a trace. -/
def sleepCount (tr : List Event) : Nat :=
  tr.countP fun e => match e with
    | Event.sleep _ => true
    | _ => false

/-- Number of diagnostic-output events (log lines and console prints)
recorded in a trace. -/
def diagCount (tr : List Event) : Nat :=
  tr.countP fun e => match e with
    | Event.logInf _ => true
    | Event.printk _ => true
    | _ => false

/-- Whether every sleep in the trace lasts `ms` milliseconds. -/
def sleepsAre (ms : Nat) (tr : List Event) : Bool :=
  tr.all fun e => match e with
    | Event.sleep m => m == ms
    | _ => true

/-- Pin logical levels recorded by the toggle calls of a trace, in order
(one entry per toggle call, the level after that call). -/
def recordedLevels (tr : List Event) : List Bool :=
  tr.filterMap fun e => match e with
    | Event.toggleCall _ l => some l
    | _ => none

/-- Alternating sequence of `n` Booleans whose first entry is `first`.
Used to state what a recorded level sequence looks like. -/
def specAlternating (first : Bool) : Nat → List Bool
  | 0 => []
  | n + 1 => first :: specAlternating (!first) n

/-! Basic lemmas about the Variant A loop. -/

/-- The Variant A loop body never exits and its trace is the fixed
four-event cycle repeated, independent of the environment. -/
lemma mainALoop_eq (env : LedEnv) :
    ∀ fuel i, mainALoop env fuel i =
      ((List.replicate fuel
        [Event.ledOn 2, Event.sleep 1000, Event.ledOff 2, Event.sleep 1000]).flatten,
        false) := by
  intro fuel
  induction fuel with
  | zero => intro i; simp [mainALoop]
  | succ n ih =>
    intro i
    simp [mainALoop, led_on, led_off, SLEEP_TIME_MS, List.replicate_succ, ih (i + 1)]

/-- The Variant A loop trace holds no diagnostic-output events. -/
lemma diagCount_mainALoop (env : LedEnv) :
    ∀ fuel i, diagCount (mainALoop env fuel i).1 = 0 := by
  intro fuel
  induction fuel with
  | zero => intro i; simp [mainALoop, diagCount]
  | succ n ih =>
    intro i
    simp [mainALoop, led_on, led_off, diagCount, List.countP_cons] at ih ⊢
    exact ih (i + 1)

/-! Basic lemmas about the Variant B loop. -/

/-- Length of an alternating sequence. -/
lemma specAlternating_length : ∀ (n : Nat) (f : Bool),
    (specAlternating f n).length = n := by
  intro n
  induction n with
  | zero => intro f; simp [specAlternating]
  | succ m ih => intro f; simp [specAlternating, ih]

/-- Entry `k` of an alternating sequence starting at `f` is `f` for even
`k` and `!f` for odd `k`. -/
lemma specAlternating_getElem : ∀ (n : Nat) (f : Bool) (k : Nat), k < n →
    (specAlternating f n)[k]? = some (if k % 2 = 0 then f else !f) := by
  intro n
  induction n with
  | zero => intro f k hk; omega
  | succ m ih =>
    intro f k hk
    match k with
    | 0 => simp [specAlternating]
    | k + 1 =>
      have hk2 : k < m := by omega
      rcases Nat.mod_two_eq_zero_or_one k with h | h
      · have hpar : (k + 1) % 2 = 1 := by omega
        simp [specAlternating, ih (!f) k hk2, h, hpar]
      · have hpar : (k + 1) % 2 = 0 := by omega
        simp [specAlternating, ih (!f) k hk2, h, hpar]

/-- Recorded levels of a trace beginning with a toggle call. -/
lemma recordedLevels_toggle (r : Int) (l : Bool) (tr : List Event) :
    recordedLevels (Event.toggleCall r l :: tr) = l :: recordedLevels tr := by
  simp [recordedLevels]

/-- Recorded levels of a trace beginning with a sleep. -/
lemma recordedLevels_sleep (ms : Nat) (tr : List Event) :
    recordedLevels (Event.sleep ms :: tr) = recordedLevels tr := by
  simp [recordedLevels]

/-- Recorded levels of a trace beginning with a console print. -/
lemma recordedLevels_printk (msg : String) (tr : List Event) :
    recordedLevels (Event.printk msg :: tr) = recordedLevels tr := by
  simp [recordedLevels]

/-- Recorded levels of a trace beginning with a configure call. -/
lemma recordedLevels_configure (fl : GpioFlag) (r : Int) (tr : List Event) :
    recordedLevels (Event.configureCall fl r :: tr) = recordedLevels tr := by
  simp [recordedLevels]

/-- When every toggle the fuel allows succeeds, the Variant B loop keeps
running, records alternating levels starting from the inverse of the entry
level, and leaves the pin at the entry level iff the iteration count is
even. -/
lemma blinkLoop_ok (env : GpioEnv) :
    ∀ (fuel : Nat) (start : Bool) (i : Nat),
      (∀ k, k < fuel → 0 ≤ env.toggleRet (i + k)) →
      (blinkLoop env fuel start i).outcome = Outcome.running ∧
      recordedLevels (blinkLoop env fuel start i).trace =
        specAlternating (!start) fuel ∧
      (blinkLoop env fuel start i).level =
        some (if fuel % 2 = 0 then start else !start) := by
  intro fuel
  induction fuel with
  | zero =>
    intro start i _
    simp [blinkLoop, recordedLevels, specAlternating]
  | succ m ih =>
    intro start i h
    have h0 : ¬ env.toggleRet i < 0 := by
      have := h 0 (by omega)
      simpa using not_lt.mpr this
    have hrec : ∀ k, k < m → 0 ≤ env.toggleRet (i + 1 + k) := by
      intro k hk
      have := h (k + 1) (by omega)
      simpa [Nat.add_assoc, Nat.add_comm 1 k] using this
    obtain ⟨ho, hr, hl⟩ := ih (!start) (i + 1) hrec
    rcases Nat.mod_two_eq_zero_or_one m with hm | hm
    · have hpar : (m + 1) % 2 = 1 := by omega
      simp [blinkLoop, gpio_pin_toggle_dt, h0, recordedLevels_toggle,
        recordedLevels_sleep, specAlternating, ho, hl, hr, hpar, hm]
    · have hpar : (m + 1) % 2 = 0 := by omega
      simp [blinkLoop, gpio_pin_toggle_dt, h0, recordedLevels_toggle,
        recordedLevels_sleep, specAlternating, ho, hl, hr, hpar, hm]

/-- When the first `j` toggles succeed and toggle `j` fails (with `j`
within the observed fuel), the Variant B loop returns after exactly `j + 1`
toggle calls and `j` sleeps, its trace ending at the failed toggle. -/
lemma blinkLoop_abort (env : GpioEnv) :
    ∀ (j fuel : Nat) (start : Bool) (i : Nat), j < fuel →
      (∀ k, k < j → 0 ≤ env.toggleRet (i + k)) →
      env.toggleRet (i + j) < 0 →
      (blinkLoop env fuel start i).outcome = Outcome.returned ∧
      toggleCount (blinkLoop env fuel start i).trace = j + 1 ∧
      sleepCount (blinkLoop env fuel start i).trace = j ∧
      (blinkLoop env fuel start i).trace.length = 2 * j + 1 := by
  intro j
  induction j with
  | zero =>
    intro fuel start i hlt _ hfail
    match fuel, hlt with
    | m + 1, _ =>
      simp only [Nat.add_zero] at hfail
      simp [blinkLoop, gpio_pin_toggle_dt, hfail, toggleCount, sleepCount]
  | succ j ih =>
    intro fuel start i hlt hsucc hfail
    match fuel, hlt with
    | m + 1, hlt =>
      have h0 : ¬ env.toggleRet i < 0 := by
        have := hsucc 0 (by omega)
        simpa using not_lt.mpr this
      have hsucc2 : ∀ k, k < j → 0 ≤ env.toggleRet (i + 1 + k) := by
        intro k hk
        have := hsucc (k + 1) (by omega)
        simpa [Nat.add_assoc, Nat.add_comm 1 k] using this
      have hfail2 : env.toggleRet (i + 1 + j) < 0 := by
        have : i + (j + 1) = i + 1 + j := by omega
        simpa [this] using hfail
      obtain ⟨ho, ht, hs, hlen⟩ := ih m (!start) (i + 1) (by omega) hsucc2 hfail2
      constructor
      · simp [blinkLoop, gpio_pin_toggle_dt, h0, ho]
      refine ⟨?_, ?_, ?_⟩ <;>
        simp [blinkLoop, gpio_pin_toggle_dt, h0, toggleCount, sleepCount,
          List.countP_cons] at ht hs hlen ⊢ <;> omega

/-- Every sleep recorded by the Variant B loop lasts `SLEEP_TIME_MS`. -/
lemma blinkLoop_sleepsAre (env : GpioEnv) :
    ∀ (fuel : Nat) (start : Bool) (i : Nat),
      sleepsAre SLEEP_TIME_MS (blinkLoop env fuel start i).trace = true := by
  intro fuel
  induction fuel with
  | zero => intro start i; simp [blinkLoop, sleepsAre]
  | succ m ih =>
    intro start i
    by_cases h : env.toggleRet i < 0
    · simp [blinkLoop, gpio_pin_toggle_dt, h, sleepsAre]
    · have := ih (!start) (i + 1)
      simp [blinkLoop, gpio_pin_toggle_dt, h, sleepsAre] at this ⊢
      exact this

/-- The Variant B loop trace holds no diagnostic-output events. -/
lemma diagCount_blinkLoop (env : GpioEnv) :
    ∀ (fuel : Nat) (start : Bool) (i : Nat),
      diagCount (blinkLoop env fuel start i).trace = 0 := by
  intro fuel
  induction fuel with
  | zero => intro start i; simp [blinkLoop, diagCount]
  | succ m ih =>
    intro start i
    by_cases h : env.toggleRet i < 0
    · simp [blinkLoop, gpio_pin_toggle_dt, h, diagCount]
    · have := ih (!start) (i + 1)
      simp [blinkLoop, gpio_pin_toggle_dt, h, diagCount, List.countP_cons] at this ⊢
      exact this

/-- When the device is ready and configuration succeeds, Variant B's entry
point is the greeting, the configure call, and then the toggle loop. -/
lemma mainB_ok_eq (env : GpioEnv) (board : String) (fuel : Nat)
    (hready : env.ready = true) (hconf : 0 ≤ env.configureRet) :
    mainB env board fuel =
      ⟨Event.printk (greeting board) ::
          Event.configureCall GpioFlag.outputActive env.configureRet ::
          (blinkLoop env fuel true 0).trace,
        (blinkLoop env fuel true 0).outcome,
        (blinkLoop env fuel true 0).level⟩ := by
  simp [mainB, hready, not_lt.mpr hconf]

/-! Concrete environments used by the witness theorems. -/

/-- Variant A environment whose on calls succeed and off calls fail. -/
def envA0 : LedEnv := ⟨fun _ => 0, fun _ => -1⟩

/-- Variant A environment where every call succeeds. -/
def envA1 : LedEnv := ⟨fun _ => 0, fun _ => 0⟩

/-- Ready GPIO whose configure and toggle calls all succeed. -/
def envOk : GpioEnv := ⟨true, 0, fun _ => 0⟩

/-- Ready GPIO whose toggles succeed twice and then fail with -5. -/
def envFailAt2 : GpioEnv := ⟨true, 0, fun i => if i < 2 then 0 else -5⟩

/-- GPIO whose readiness check fails. -/
def envNotReady : GpioEnv := ⟨false, 0, fun _ => 0⟩

/-- Ready GPIO whose configure call fails with -22. -/
def envConfFail : GpioEnv := ⟨true, -22, fun _ => 0⟩

/-! Claim theorems. -/

/-- C1: for Variant B, once readiness and configuration have succeeded,
each iteration toggles; when toggle `j` returns a negative code (the first
`j` having succeeded), the entry point returns at once: exactly `j + 1`
toggle calls, exactly `j` sleeps (none after the failed toggle), nothing
after the failed toggle in the trace, and every sleep lasts 1000 ms. -/
theorem mainB_toggle_failure_aborts (env : GpioEnv) (board : String)
    (fuel j : Nat) (hready : env.ready = true) (hconf : 0 ≤ env.configureRet)
    (hsucc : ∀ i, i < j → 0 ≤ env.toggleRet i) (hfail : env.toggleRet j < 0)
    (hj : j < fuel) :
    (mainB env board fuel).outcome = Outcome.returned ∧
    toggleCount (mainB env board fuel).trace = j + 1 ∧
    sleepCount (mainB env board fuel).trace = j ∧
    (mainB env board fuel).trace.length = 2 * j + 3 ∧
    sleepsAre SLEEP_TIME_MS (mainB env board fuel).trace = true := by
  have habort := blinkLoop_abort env j fuel true 0 hj
    (by intro k hk; simpa using hsucc k hk) (by simpa using hfail)
  obtain ⟨ho, ht, hs, hlen⟩ := habort
  have hsl := blinkLoop_sleepsAre env fuel true 0
  rw [mainB_ok_eq env board fuel hready hconf]
  simp [toggleCount, sleepCount, sleepsAre, List.countP_cons] at ht hs hsl ⊢
  refine ⟨ho, by omega, by omega, by omega, hsl⟩

/-- Witness for C1 at a concrete environment: toggles 0 and 1 succeed,
toggle 2 fails, observed with fuel 5. -/
theorem mainB_toggle_failure_aborts_witness :
    (mainB envFailAt2 "b" 5).outcome = Outcome.returned ∧
    toggleCount (mainB envFailAt2 "b" 5).trace = 2 + 1 ∧
    sleepCount (mainB envFailAt2 "b" 5).trace = 2 ∧
    (mainB envFailAt2 "b" 5).trace.length = 2 * 2 + 3 ∧
    sleepsAre SLEEP_TIME_MS (mainB envFailAt2 "b" 5).trace = true :=
  mainB_toggle_failure_aborts envFailAt2 "b" 5 2 rfl (by decide)
    (by intro i hi; simp [envFailAt2, hi]) (by decide) (by decide)

/-- C2: Variant A's loop body is exactly on-channel-2, sleep 1000 ms,
off-channel-2, sleep 1000 ms, repeated; and the whole run is independent
of the return codes of the on and off calls. -/
theorem mainA_loop_shape (env env2 : LedEnv) (fuel : Nat) :
    (mainA env fuel).1 = Event.logInf "Blinky Sample" ::
      (List.replicate fuel
        [Event.ledOn 2, Event.sleep 1000, Event.ledOff 2,
          Event.sleep 1000]).flatten ∧
    mainA env fuel = mainA env2 fuel := by
  simp [mainA, mainALoop_eq]

/-- C3: for Variant B, when the readiness check fails the entry point
returns immediately after the greeting: no configure call, no toggle call,
the loop never entered. -/
theorem mainB_not_ready_returns (env : GpioEnv) (board : String) (fuel : Nat)
    (h : env.ready = false) :
    mainB env board fuel =
      ⟨[Event.printk (greeting board)], Outcome.returned, none⟩ ∧
    configureCount (mainB env board fuel).trace = 0 ∧
    toggleCount (mainB env board fuel).trace = 0 := by
  refine ⟨by simp [mainB, h], ?_, ?_⟩ <;>
    simp [mainB, h, configureCount, toggleCount]

/-- Witness for C3 at a concrete not-ready environment. -/
theorem mainB_not_ready_returns_witness :
    mainB envNotReady "b" 4 =
      ⟨[Event.printk (greeting "b")], Outcome.returned, none⟩ ∧
    configureCount (mainB envNotReady "b" 4).trace = 0 ∧
    toggleCount (mainB envNotReady "b" 4).trace = 0 :=
  mainB_not_ready_returns envNotReady "b" 4 rfl

/-- C4: for Variant B, the configure call requests output mode with
initial state active; when it returns a negative code the entry point
returns immediately after the greeting and that configure call: no toggle
call, the loop never entered. -/
theorem mainB_configure_fail_returns (env : GpioEnv) (board : String)
    (fuel : Nat) (hready : env.ready = true) (hconf : env.configureRet < 0) :
    mainB env board fuel =
      ⟨[Event.printk (greeting board),
          Event.configureCall GpioFlag.outputActive env.configureRet],
        Outcome.returned, none⟩ ∧
    toggleCount (mainB env board fuel).trace = 0 := by
  refine ⟨by simp [mainB, hready, hconf], ?_⟩
  simp [mainB, hready, hconf, toggleCount]

/-- Witness for C4 at a concrete environment whose configure call fails. -/
theorem mainB_configure_fail_returns_witness :
    mainB envConfFail "b" 4 =
      ⟨[Event.printk (greeting "b"),
          Event.configureCall GpioFlag.outputActive envConfFail.configureRet],
        Outcome.returned, none⟩ ∧
    toggleCount (mainB envConfFail "b" 4).trace = 0 :=
  mainB_configure_fail_returns envConfFail "b" 4 rfl (by decide)

/-- C5 counterexample: with a ready, configurable GPIO and one loop
iteration, the recorded levels are not the alternating sequence starting
from active (true): the single recorded level is inactive, because
configuration leaves the pin active and the first toggle inverts it. -/
theorem mainB_levels_not_from_active :
    ¬ recordedLevels (mainB envOk "b" 1).trace = specAlternating true 1 := by
  decide

/-- C5 (amended): for Variant B with a ready, configurable GPIO and every
toggle succeeding, after `N` loop iterations the recorded level sequence
(one entry per toggle) alternates starting from inactive (false) and has
exactly `N` entries. -/
theorem mainB_recorded_levels (env : GpioEnv) (board : String) (N : Nat)
    (hready : env.ready = true) (hconf : 0 ≤ env.configureRet)
    (hsucc : ∀ i, i < N → 0 ≤ env.toggleRet i) :
    recordedLevels (mainB env board N).trace = specAlternating false N ∧
    (recordedLevels (mainB env board N).trace).length = N := by
  obtain ⟨_, hr, _⟩ := blinkLoop_ok env N true 0
    (by intro k hk; simpa using hsucc k hk)
  rw [mainB_ok_eq env board N hready hconf]
  rw [recordedLevels_printk, recordedLevels_configure]
  simp at hr
  exact ⟨hr, by rw [hr, specAlternating_length]⟩

/-- Witness for the amended C5 at a concrete environment with 3
iterations: levels inactive, active, inactive. -/
theorem mainB_recorded_levels_witness :
    recordedLevels (mainB envOk "b" 3).trace = specAlternating false 3 ∧
    (recordedLevels (mainB envOk "b" 3).trace).length = 3 :=
  mainB_recorded_levels envOk "b" 3 rfl (by decide)
    (by intro i _; simp [envOk])

/-- C6: for Variant B with a ready device, successful configuration and
all observed toggles succeeding, each iteration inverts the recorded level
relative to the previous one, and two consecutive toggles return the pin
to its earlier level. -/
theorem mainB_double_toggle_identity (env : GpioEnv) (board : String)
    (fuel k : Nat) (hready : env.ready = true) (hconf : 0 ≤ env.configureRet)
    (hsucc : ∀ i, i < fuel → 0 ≤ env.toggleRet i) (hk : k + 2 < fuel) :
    (recordedLevels (mainB env board fuel).trace)[k + 1]? =
      ((recordedLevels (mainB env board fuel).trace)[k]?).map (fun b => !b) ∧
    (recordedLevels (mainB env board fuel).trace)[k + 2]? =
      (recordedLevels (mainB env board fuel).trace)[k]? := by
  have hr := (mainB_recorded_levels env board fuel hready hconf hsucc).1
  rw [hr, specAlternating_getElem fuel false k (by omega),
    specAlternating_getElem fuel false (k + 1) (by omega),
    specAlternating_getElem fuel false (k + 2) (by omega)]
  rcases Nat.mod_two_eq_zero_or_one k with h | h
  · have h1 : (k + 1) % 2 = 1 := by omega
    have h2 : (k + 2) % 2 = 0 := by omega
    simp [h, h1, h2]
  · have h1 : (k + 1) % 2 = 0 := by omega
    have h2 : (k + 2) % 2 = 1 := by omega
    simp [h, h1, h2]

/-- Witness for C6 at a concrete all-success environment, fuel 4, k 0. -/
theorem mainB_double_toggle_identity_witness :
    (recordedLevels (mainB envOk "b" 4).trace)[0 + 1]? =
      ((recordedLevels (mainB envOk "b" 4).trace)[0]?).map (fun b => !b) ∧
    (recordedLevels (mainB envOk "b" 4).trace)[0 + 2]? =
      (recordedLevels (mainB envOk "b" 4).trace)[0]? :=
  mainB_double_toggle_identity envOk "b" 4 0 rfl (by decide)
    (by intro i _; simp [envOk]) (by decide)

/-- C7: Variant A never leaves its loop — within every observation bound
the entry point has not returned — and any exit code it could produce on
the path after the loop equals 0. -/
theorem mainA_never_exits (env : LedEnv) (fuel : Nat) :
    (mainA env fuel).2 = none ∧
    ∀ c : Int, (mainA env fuel).2 = some c → c = 0 := by
  constructor
  · simp [mainA, mainALoop_eq]
  · intro c hc
    simp [mainA, mainALoop_eq] at hc

/-- Witness for C7 at a concrete environment and bound. -/
theorem mainA_never_exits_witness :
    (mainA envA1 3).2 = none ∧
    ∀ c : Int, (mainA envA1 3).2 = some c → c = 0 :=
  mainA_never_exits envA1 3

/-- C8: Variant A's first event is the single informational log line
"Blinky Sample" and Variant B's first event is the single console line
with the greeting and the board identity; in both variants no further
diagnostic output follows (exactly one diagnostic event in each trace). -/
theorem diag_output_once (ea : LedEnv) (eb : GpioEnv) (board : String)
    (fuelA fuelB : Nat) :
    (mainA ea fuelA).1.head? = some (Event.logInf "Blinky Sample") ∧
    diagCount (mainA ea fuelA).1 = 1 ∧
    (mainB eb board fuelB).trace.head? =
      some (Event.printk (greeting board)) ∧
    diagCount (mainB eb board fuelB).trace = 1 := by
  have hA := diagCount_mainALoop ea fuelA 0
  have hB := diagCount_blinkLoop eb fuelB true 0
  refine ⟨by simp [mainA], ?_, ?_, ?_⟩
  · simp [mainA, diagCount, List.countP_cons] at hA ⊢
    exact hA
  · rcases h : eb.ready with _ | _
    · simp [mainB, h]
    · rcases lt_or_le eb.configureRet 0 with hc | hc
      · simp [mainB, h, hc]
      · simp [mainB_ok_eq eb board fuelB h hc]
  · rcases h : eb.ready with _ | _
    · simp [mainB, h, diagCount]
    · rcases lt_or_le eb.configureRet 0 with hc | hc
      · simp [mainB, h, hc, diagCount]
      · rw [mainB_ok_eq eb board fuelB h hc]
        simp [diagCount, List.countP_cons] at hB ⊢
        exact hB

/-- C9: for Variant B, configuration drives the pin active and each
successful toggle inverts it: after exactly `k` successful toggles the pin
level is active iff `k` is even, and the first toggle records the inactive
level. -/
theorem mainB_level_parity (env : GpioEnv) (board : String) (k : Nat)
    (hready : env.ready = true) (hconf : 0 ≤ env.configureRet)
    (hsucc : ∀ i, i < k → 0 ≤ env.toggleRet i) :
    (mainB env board k).level = some (decide (k % 2 = 0)) ∧
    (recordedLevels (mainB env board k).trace).head? =
      (if k = 0 then none else some false) := by
  obtain ⟨_, hr, hl⟩ := blinkLoop_ok env k true 0
    (by intro i hi; simpa using hsucc i hi)
  rw [mainB_ok_eq env board k hready hconf]
  constructor
  · rcases Nat.mod_two_eq_zero_or_one k with h | h <;> simp [hl, h]
  · rw [recordedLevels_printk, recordedLevels_configure, hr]
    match k with
    | 0 => simp [specAlternating]
    | k + 1 => simp [specAlternating]

/-- Witness for C9 at a concrete all-success environment after 2 toggles:
the pin is back at the active level and the first recorded level is
inactive. -/
theorem mainB_level_parity_witness :
    (mainB envOk "b" 2).level = some (decide (2 % 2 = 0)) ∧
    (recordedLevels (mainB envOk "b" 2).trace).head? =
      (if 2 = 0 then none else some false) :=
  mainB_level_parity envOk "b" 2 rfl (by decide) (by intro i _; simp [envOk])

/-- C10: for Variant B, the greeting line is the first event of every
execution — whatever the readiness check, configure result or toggle
results — so it is also emitted on the runs that return early. -/
theorem mainB_greeting_unconditional (env : GpioEnv) (board : String)
    (fuel : Nat) :
    (mainB env board fuel).trace.head? =
      some (Event.printk (greeting board)) := by
  rcases h : env.ready with _ | _
  · simp [mainB, h]
  · rcases lt_or_le env.configureRet 0 with hc | hc
    · simp [mainB, h, hc]
    · simp [mainB_ok_eq env board fuel h hc]

end Blinky
